import Mathlib

/-!
Shallow embedding of the IDS client (React front-end of a network
intrusion-detection system).  The definitions below are translated from
the source files `src/unnamed/part_000` (the `NetworkCapture` component),
`src/Client/src/pages/RealTimeMonitoring.js` and
`src/Client/src/pages/Settings.js`.  JavaScript arrays become Lean lists,
objects become structures, `undefined`/absent fields become `Option`,
and JS numbers used as probabilities become `ℚ`.
-/

namespace IDS

/-- A network telemetry event as received on the `network_data` socket
channel.  Only the fields the client reads are modelled; `probability`
and `threat_level` may be absent on unclassified events. -/
structure NetworkEvent where
  timestamp : Nat
  source : String
  probability : Option ℚ
  prediction : Option Nat
  threat_level : Option String
  deriving Repr, DecidableEq

/-- A security alert as received on the `security_alert` channel. -/
structure SecAlert where
  timestamp : Nat
  threat_level : Option String
  message : String
  source : String
  deriving Repr, DecidableEq

/-- The `network_data` socket handler (part_000 lines 54-60, and
RealTimeMonitoring.js lines 42-47):
`setNetworkData(prev => [data, ...prev].slice(0, 100))`. -/
def networkDataHandler (prev : List NetworkEvent) (data : NetworkEvent) :
    List NetworkEvent :=
  (data :: prev).take 100

/-- The `security_alert` socket handler (part_000 lines 62-66, and
RealTimeMonitoring.js lines 49-52):
`setAlerts(prev => [alert, ...prev].slice(0, 50))`. -/
def securityAlertHandler (prev : List SecAlert) (alert : SecAlert) :
    List SecAlert :=
  (alert :: prev).take 50

/-- Filter sub-configuration (part_000 lines 23-27). -/
structure FilterConfig where
  protocols : List String
  ports : List Nat
  min_packet_size : Int
  deriving Repr, DecidableEq

/-- The capture configuration object (part_000 lines 18-28). -/
structure CaptureConfig where
  mode : String
  interface : String
  privacy_mode : Bool
  alert_threshold : ℚ
  filters : FilterConfig
  deriving Repr, DecidableEq

/-- The initial `captureConfig` React state (part_000 lines 18-28). -/
def initialCaptureConfig : CaptureConfig :=
  { mode := "simulated"
    interface := ""
    privacy_mode := true
    alert_threshold := 0.7
    filters :=
      { protocols := ["TCP", "UDP", "ICMP"]
        ports := []
        min_packet_size := 0 } }

/-- `getThreatLevelColor` (part_000 lines 157-164, identical in
RealTimeMonitoring.js lines 128-135).  The JS `switch` strictly
compares the `level` argument against the three string literals in
order; an absent (`undefined`) threat level is modelled as `none` and,
like every other unmatched value, falls through to the `default`
branch. -/
def getThreatLevelColor (level : Option String) : String :=
  if level = some "HIGH" then "#f5222d"
  else if level = some "MEDIUM" then "#faad14"
  else if level = some "LOW" then "#52c41a"
  else "#d9d9d9"

/-- The `strokeColor` expression of the Probability column render
(part_000 line 221, identical in RealTimeMonitoring.js line 170):
`probability > 0.7 ? '#f5222d' : probability > 0.3 ? '#faad14' : '#52c41a'`.
It reads only the event's probability; `captureConfig.alert_threshold`
does not occur in the expression. -/
def probabilityStrokeColor (probability : ℚ) : String :=
  if probability > 0.7 then "#f5222d"
  else if probability > 0.3 then "#faad14"
  else "#52c41a"

/-- The top-level configuration keys passed to `updateCaptureConfig`
at its call sites (part_000 lines 301, 505, 518, 541, 549), with the
value type each call site supplies. -/
inductive ConfigPatch where
  | mode (v : String)
  | iface (v : String)
  | privacyMode (v : Bool)
  | alertThreshold (v : ℚ)
  deriving Repr, DecidableEq

/-- The filter keys passed to `updateFilterConfig` at its call sites
(part_000 lines 562, 575, 585). -/
inductive FilterPatch where
  | protocols (v : List String)
  | ports (v : List Nat)
  | minPacketSize (v : Int)
  deriving Repr, DecidableEq

/-- `updateCaptureConfig` (part_000 lines 132-137):
`setCaptureConfig(prev => ({...prev, [key]: value}))` — the spread
copies every field of `prev` and then overrides the single named key,
producing one new configuration object. -/
def updateCaptureConfig (prev : CaptureConfig) : ConfigPatch → CaptureConfig
  | .mode v => { prev with mode := v }
  | .iface v => { prev with interface := v }
  | .privacyMode v => { prev with privacy_mode := v }
  | .alertThreshold v => { prev with alert_threshold := v }

/-- `updateFilterConfig` (part_000 lines 139-147):
`setCaptureConfig(prev => ({...prev, filters: {...prev.filters, [key]: value}}))`. -/
def updateFilterConfig (prev : CaptureConfig) : FilterPatch → CaptureConfig
  | .protocols v => { prev with filters := { prev.filters with protocols := v } }
  | .ports v => { prev with filters := { prev.filters with ports := v } }
  | .minPacketSize v =>
      { prev with filters := { prev.filters with min_packet_size := v } }

/-- The capture-status object returned by
`GET /network/capture/status` and stored in `captureStatus`
(part_000 lines 85-93).  Only the fields the component reads are
modelled. -/
structure CaptureStatus where
  is_capturing : Bool
  total_packets : Nat
  deriving Repr, DecidableEq

/-- The React state of the `NetworkCapture` component, restricted to
the pieces the claims are about.  `captureStatus` starts as the empty
object `{}` (every field `undefined`), modelled as `none`. -/
structure ClientState where
  isCapturing : Bool
  captureStatus : Option CaptureStatus
  networkData : List NetworkEvent
  alerts : List SecAlert
  captureConfig : CaptureConfig
  deriving Repr, DecidableEq

/-- Effect of one `network_data` socket message on the component state
(part_000 lines 54-60): only `networkData` changes. -/
def applyNetworkData (st : ClientState) (data : NetworkEvent) : ClientState :=
  { st with networkData := networkDataHandler st.networkData data }

/-- Effect of one `security_alert` socket message on the component
state (part_000 lines 62-66): only `alerts` changes. -/
def applySecurityAlert (st : ClientState) (alert : SecAlert) : ClientState :=
  { st with alerts := securityAlertHandler st.alerts alert }

/-- `fetchCaptureStatus` (part_000 lines 85-93) on a successful
response: `setCaptureStatus(response.data); setIsCapturing(response.data.is_capturing)`. -/
def fetchCaptureStatus (st : ClientState) (response : CaptureStatus) : ClientState :=
  { st with captureStatus := some response, isCapturing := response.is_capturing }

/-- The value rendered by the "Packets Captured" Statistic (part_000
line 365): `captureStatus.total_packets || 0` — `0` while the status
object is still empty. -/
def displayedPacketCount (st : ClientState) : Nat :=
  match st.captureStatus with
  | some s => s.total_packets
  | none => 0

/-- `updateCaptureConfig` / `updateFilterConfig` at the component level:
only the `captureConfig` state cell changes. -/
def applyConfigPatch (st : ClientState) (p : ConfigPatch) : ClientState :=
  { st with captureConfig := updateCaptureConfig st.captureConfig p }

/-- `updateFilterConfig` at the component level. -/
def applyFilterPatch (st : ClientState) (p : FilterPatch) : ClientState :=
  { st with captureConfig := updateFilterConfig st.captureConfig p }

/-- The `disabled` condition of the Start/Stop Capture button
(part_000 line 342):
`captureConfig.mode === 'real' && !captureConfig.interface` —
`!captureConfig.interface` is true exactly when the interface string is
empty. -/
def startButtonDisabled (cfg : CaptureConfig) : Bool :=
  cfg.mode == "real" && cfg.interface == ""

/-- `startCapture` (part_000 lines 104-117): on a successful POST the
client sets `isCapturing` to true; on a rejected POST the `catch`
branch only shows an error message and leaves the state untouched. -/
def startCapture (st : ClientState) (serverOk : Bool) : ClientState :=
  if serverOk then { st with isCapturing := true } else st

/-- `stopCapture` (part_000 lines 119-130): on a successful POST the
client sets `isCapturing` to false; on a rejected POST the state is
untouched. -/
def stopCapture (st : ClientState) (serverOk : Bool) : ClientState :=
  if serverOk then { st with isCapturing := false } else st

/-- One click on the capture button (part_000 lines 337-345): a
disabled button fires no handler; otherwise the click dispatches
`stopCapture` when capturing and `startCapture` when not. -/
def captureButtonClick (st : ClientState) (serverOk : Bool) : ClientState :=
  if startButtonDisabled st.captureConfig then st
  else if st.isCapturing then stopCapture st serverOk
  else startCapture st serverOk

/-- Lifecycle errors of the capture session, from the spec's error
taxonomy. -/
inductive StartError where
  | InvalidConfig
  | AlreadyRunning
  deriving Repr, DecidableEq

/-- Server-side session state, from the spec's SessionState machine. -/
inductive SessionState where
  | Idle
  | Running
  | Error
  deriving Repr, DecidableEq

/-- Server-side session, from the spec's `status()` contract. -/
structure ServerSession where
  state : SessionState
  config : CaptureConfig
  deriving Repr, DecidableEq

/-- `is_capturing` as reported by the server `status()` endpoint. -/
def ServerSession.is_capturing (s : ServerSession) : Bool :=
  s.state == SessionState.Running

/-- Modelled from the spec: the `POST /network/capture/start` endpoint
is server code absent from src/.  Per the spec, `start` "fails with
InvalidConfig if mode=real and interface is empty/unknown, or
alert_threshold outside [0,1]", fails with AlreadyRunning if the state
is not Idle or Error, and otherwise transitions to Running with the
given config; an error leaves the session unchanged. -/
def serverStart (sess : ServerSession) (cfg : CaptureConfig) :
    ServerSession × Except StartError Unit :=
  if cfg.mode = "real" ∧ cfg.interface = "" then
    (sess, Except.error StartError.InvalidConfig)
  else if cfg.alert_threshold < 0 ∨ 1 < cfg.alert_threshold then
    (sess, Except.error StartError.InvalidConfig)
  else if sess.state = SessionState.Running then
    (sess, Except.error StartError.AlreadyRunning)
  else
    ({ state := SessionState.Running, config := cfg }, Except.ok ())

/-- Modelled from the spec: the `POST /network/capture/stop` endpoint
is server code absent from src/.  Per the spec, `stop()` is
"idempotent — no-op success if already Idle"; it always returns `{ok}`
(the `Bool` component, `true` for success) and leaves the session
Idle. -/
def serverStop (sess : ServerSession) : ServerSession × Bool :=
  ({ sess with state := SessionState.Idle }, true)

/-- `importSettings` (Settings.js lines 86-102): the file content is
handed to `JSON.parse` inside a `try`; on success the parsed object
replaces the settings state, on a parse exception only an error
message is shown and the state is not written.  `JSON.parse` is an
external library call, modelled as a `parse` parameter returning
`some` parsed value or `none` on failure; the returned `Bool` records
whether the success message (`true`) or the error message (`false`)
was shown. -/
def importSettings {S : Type} (parse : String → Option S)
    (prevSettings : S) (fileContent : String) : S × Bool :=
  match parse fileContent with
  | some imported => (imported, true)
  | none => (prevSettings, false)

/-! ### Helper lemmas for the bounded newest-first buffers -/

/-- Taking `n` of an append is unchanged when the right part was
already truncated to `n`. -/
theorem take_append_take {α : Type} (n : Nat) (l m : List α) :
    (l ++ m.take n).take n = (l ++ m).take n := by
  rw [List.take_append_eq_append_take, List.take_append_eq_append_take,
    List.take_take]
  have h : min (n - l.length) n = n - l.length :=
    Nat.min_eq_left (Nat.sub_le n l.length)
  rw [h]

/-- Folding the push-then-truncate step over a list of items yields the
truncated reversed items in front of the initial buffer. -/
theorem foldl_push_take {α : Type} (n : Nat) (es : List α) :
    ∀ b : List α, b.length ≤ n →
      es.foldl (fun acc x => (x :: acc).take n) b = (es.reverse ++ b).take n := by
  induction es with
  | nil =>
      intro b hb
      simp [List.take_of_length_le hb]
  | cons e es ih =>
      intro b hb
      rw [List.foldl_cons]
      rw [ih ((e :: b).take n) (by simp)]
      rw [take_append_take]
      simp

/-! ### Claims -/

/-- C1: for every sequence of events pushed through the `network_data`
handler starting from an empty buffer, the buffer holds exactly the
`min(n, 100)` most recently pushed events in newest-first order
(`es.reverse.take 100`); every push places the new event at the front,
and from any buffer of length at most 100 the result never exceeds
100, so once capacity is exceeded the oldest item is the one
evicted. -/
theorem telemetryBuffer_bounded_newest_first
    (es : List NetworkEvent) (buf : List NetworkEvent) (e : NetworkEvent) :
    es.foldl networkDataHandler [] = es.reverse.take 100
    ∧ (es.foldl networkDataHandler []).length = min es.length 100
    ∧ (networkDataHandler buf e).length ≤ 100
    ∧ (networkDataHandler buf e).head? = some e := by
  have hfold : es.foldl networkDataHandler [] = es.reverse.take 100 := by
    have h := foldl_push_take 100 es [] (by simp)
    simpa [networkDataHandler] using h
  refine ⟨hfold, ?_, ?_, ?_⟩
  · rw [hfold]
    simp [Nat.min_comm]
  · simp [networkDataHandler]
  · simp [networkDataHandler, List.head?_take]

/-- C2: for every sequence of alerts pushed through the
`security_alert` handler starting from an empty buffer, the buffer
holds exactly the `min(n, 50)` most recent alerts newest-first
(`as.reverse.take 50`); every push places the new alert at the front,
and the length never exceeds 50, the oldest alert being evicted on
overflow. -/
theorem alertBuffer_bounded_newest_first
    (as : List SecAlert) (buf : List SecAlert) (a : SecAlert) :
    as.foldl securityAlertHandler [] = as.reverse.take 50
    ∧ (as.foldl securityAlertHandler []).length = min as.length 50
    ∧ (securityAlertHandler buf a).length ≤ 50
    ∧ (securityAlertHandler buf a).head? = some a := by
  have hfold : as.foldl securityAlertHandler [] = as.reverse.take 50 := by
    have h := foldl_push_take 50 as [] (by simp)
    simpa [securityAlertHandler] using h
  refine ⟨hfold, ?_, ?_, ?_⟩
  · rw [hfold]
    simp [Nat.min_comm]
  · simp [securityAlertHandler]
  · simp [securityAlertHandler, List.head?_take]

/-- C3 counterexample: the rendered band uses strict comparisons, so
the claim fails at concrete probabilities.  At `p = 0.8` the
Probability column stroke colour is the HIGH colour `#f5222d`, not the
MEDIUM colour the claim asserts for `alert_threshold = 0.9`; and at
`p = 0.7` the rendered colour is the MEDIUM colour `#faad14`, although
the claim's rule `p ≥ 0.7 → HIGH` demands the HIGH colour there. -/
theorem threatBand_strict_comparison_counterexample :
    probabilityStrokeColor 0.8 = getThreatLevelColor (some "HIGH")
    ∧ probabilityStrokeColor 0.8 ≠ getThreatLevelColor (some "MEDIUM")
    ∧ probabilityStrokeColor 0.7 = getThreatLevelColor (some "MEDIUM")
    ∧ probabilityStrokeColor 0.7 ≠ getThreatLevelColor (some "HIGH") := by
  have h8 : probabilityStrokeColor 0.8 = "#f5222d" := by
    simp only [probabilityStrokeColor]
    rw [if_pos (by norm_num)]
  have h7 : probabilityStrokeColor 0.7 = "#faad14" := by
    simp only [probabilityStrokeColor]
    rw [if_neg (by norm_num), if_pos (by norm_num)]
  refine ⟨?_, ?_, ?_, ?_⟩
  · rw [h8]; rfl
  · rw [h8]
    decide
  · rw [h7]; rfl
  · rw [h7]
    decide

/-- C3 amended: for every event with a present probability `p`, the
rendered band colour is HIGH (`#f5222d`) iff `p > 0.7`, MEDIUM
(`#faad14`) iff `0.3 < p ≤ 0.7`, and LOW (`#52c41a`) iff `p ≤ 0.3`.
The colour is computed by `probabilityStrokeColor` from `p` alone —
`alert_threshold` does not occur in the expression — so in particular
for `alert_threshold = 0.9` and `p = 0.8` the band is HIGH regardless
of the threshold. -/
theorem probabilityStrokeColor_bands (p : ℚ) :
    (probabilityStrokeColor p = "#f5222d" ↔ 0.7 < p)
    ∧ (probabilityStrokeColor p = "#faad14" ↔ 0.3 < p ∧ p ≤ 0.7)
    ∧ (probabilityStrokeColor p = "#52c41a" ↔ p ≤ 0.3)
    ∧ probabilityStrokeColor 0.8 = "#f5222d" := by
  have h8 : probabilityStrokeColor 0.8 = "#f5222d" := by
    simp only [probabilityStrokeColor]
    rw [if_pos (by norm_num)]
  by_cases h1 : (0.7 : ℚ) < p
  · have hc : probabilityStrokeColor p = "#f5222d" := by
      simp only [probabilityStrokeColor]
      rw [if_pos h1]
    rw [hc]
    refine ⟨iff_of_true rfl h1, iff_of_false (by decide) ?_,
      iff_of_false (by decide) ?_, h8⟩
    · exact fun hboth => absurd h1 (not_lt.mpr hboth.2)
    · exact fun hle => absurd h1 (not_lt.mpr (hle.trans (by norm_num)))
  · by_cases h2 : (0.3 : ℚ) < p
    · have hc : probabilityStrokeColor p = "#faad14" := by
        simp only [probabilityStrokeColor]
        rw [if_neg h1, if_pos h2]
      rw [hc]
      exact ⟨iff_of_false (by decide) h1, iff_of_true rfl ⟨h2, not_lt.mp h1⟩,
        iff_of_false (by decide) (not_le.mpr h2), h8⟩
    · have hc : probabilityStrokeColor p = "#52c41a" := by
        simp only [probabilityStrokeColor]
        rw [if_neg h1, if_neg h2]
      rw [hc]
      exact ⟨iff_of_false (by decide) h1,
        iff_of_false (by decide) (fun hboth => absurd hboth.1 h2),
        iff_of_true rfl (not_lt.mp h2), h8⟩

/-- C4: the initial `captureConfig` React state has exactly the
documented defaults. -/
theorem initialCaptureConfig_defaults :
    initialCaptureConfig.mode = "simulated"
    ∧ initialCaptureConfig.interface = ""
    ∧ initialCaptureConfig.privacy_mode = true
    ∧ initialCaptureConfig.alert_threshold = 0.7
    ∧ initialCaptureConfig.filters.protocols = ["TCP", "UDP", "ICMP"]
    ∧ initialCaptureConfig.filters.ports = []
    ∧ initialCaptureConfig.filters.min_packet_size = 0 :=
  ⟨rfl, rfl, rfl, rfl, rfl, rfl, rfl⟩

/-- A configuration in real-capture mode with no interface selected,
used as the concrete input of witnesses. -/
def realModeNoInterfaceConfig : CaptureConfig :=
  { initialCaptureConfig with mode := "real" }

/-- An idle component state with the real-mode, no-interface
configuration, used as the concrete input of witnesses. -/
def idleClientState : ClientState :=
  { isCapturing := false
    captureStatus := none
    networkData := []
    alerts := []
    captureConfig := realModeNoInterfaceConfig }

/-- An idle server session, used as the concrete input of witnesses. -/
def idleServerSession : ServerSession :=
  { state := SessionState.Idle, config := initialCaptureConfig }

/-- C5: with `mode = "real"` and an empty interface and capture not
running, the capture button is disabled, so a click is a no-op and
`isCapturing` stays `false` whatever the server would have answered;
and the (spec-modelled) server `start` rejects the configuration with
`InvalidConfig`, leaving the session unchanged. -/
theorem start_real_empty_interface_rejected
    (st : ClientState) (sess : ServerSession) (r : Bool)
    (hmode : st.captureConfig.mode = "real")
    (hiface : st.captureConfig.interface = "")
    (hcap : st.isCapturing = false) :
    startButtonDisabled st.captureConfig = true
    ∧ captureButtonClick st r = st
    ∧ (captureButtonClick st r).isCapturing = false
    ∧ serverStart sess st.captureConfig
        = (sess, Except.error StartError.InvalidConfig) := by
  have hdis : startButtonDisabled st.captureConfig = true := by
    simp [startButtonDisabled, hmode, hiface]
  have hclick : captureButtonClick st r = st := by
    simp [captureButtonClick, hdis]
  refine ⟨hdis, hclick, by rw [hclick, hcap], ?_⟩
  simp [serverStart, hmode, hiface]

/-- C5 witness: the rejection evaluated on the concrete idle state with
the real-mode, empty-interface configuration. -/
theorem start_real_empty_interface_rejected_witness :
    startButtonDisabled idleClientState.captureConfig = true
    ∧ captureButtonClick idleClientState true = idleClientState
    ∧ (captureButtonClick idleClientState true).isCapturing = false
    ∧ serverStart idleServerSession idleClientState.captureConfig
        = (idleServerSession, Except.error StartError.InvalidConfig) :=
  start_real_empty_interface_rejected idleClientState idleServerSession true
    rfl rfl rfl

/-- C6: `stop` is idempotent.  Two consecutive (spec-modelled) server
stops both succeed, the second changes nothing, the resulting session
reports `is_capturing = false`, a stop issued on an already Idle
session is a no-op success, and two consecutive successful client
`stopCapture` calls leave `isCapturing = false`. -/
theorem stop_idempotent (st : ClientState) (sess : ServerSession)
    (cfg : CaptureConfig) :
    (serverStop sess).2 = true
    ∧ (serverStop (serverStop sess).1).2 = true
    ∧ (serverStop (serverStop sess).1).1 = (serverStop sess).1
    ∧ (serverStop (serverStop sess).1).1.is_capturing = false
    ∧ serverStop { state := SessionState.Idle, config := cfg }
        = ({ state := SessionState.Idle, config := cfg }, true)
    ∧ (stopCapture (stopCapture st true) true).isCapturing = false :=
  ⟨rfl, rfl, rfl, rfl, rfl, rfl⟩

/-- C7: reconfiguration is frame-preserving.  A configuration or
filter patch never changes `isCapturing`; a top-level patch never
changes the `filters` block; a filter patch never changes the four
top-level fields; and each single-key patch sets exactly its named
field, leaving every other field (and every other filters sub-field)
with its previous value — the new configuration is one whole record
built in a single step. -/
theorem reconfigure_frame (st : ClientState) (p : ConfigPatch)
    (q : FilterPatch) (cfg : CaptureConfig) (mv iv : String) (bv : Bool)
    (tv : ℚ) (ps : List String) (pn : List Nat) (ms : Int) :
    (applyConfigPatch st p).isCapturing = st.isCapturing
    ∧ (applyFilterPatch st q).isCapturing = st.isCapturing
    ∧ (updateCaptureConfig cfg p).filters = cfg.filters
    ∧ (updateFilterConfig cfg q).mode = cfg.mode
    ∧ (updateFilterConfig cfg q).interface = cfg.interface
    ∧ (updateFilterConfig cfg q).privacy_mode = cfg.privacy_mode
    ∧ (updateFilterConfig cfg q).alert_threshold = cfg.alert_threshold
    ∧ (updateCaptureConfig cfg (ConfigPatch.mode mv)).mode = mv
    ∧ (updateCaptureConfig cfg (ConfigPatch.mode mv)).interface = cfg.interface
    ∧ (updateCaptureConfig cfg (ConfigPatch.mode mv)).privacy_mode
        = cfg.privacy_mode
    ∧ (updateCaptureConfig cfg (ConfigPatch.mode mv)).alert_threshold
        = cfg.alert_threshold
    ∧ (updateCaptureConfig cfg (ConfigPatch.iface iv)).interface = iv
    ∧ (updateCaptureConfig cfg (ConfigPatch.iface iv)).mode = cfg.mode
    ∧ (updateCaptureConfig cfg (ConfigPatch.iface iv)).privacy_mode
        = cfg.privacy_mode
    ∧ (updateCaptureConfig cfg (ConfigPatch.iface iv)).alert_threshold
        = cfg.alert_threshold
    ∧ (updateCaptureConfig cfg (ConfigPatch.privacyMode bv)).privacy_mode = bv
    ∧ (updateCaptureConfig cfg (ConfigPatch.privacyMode bv)).mode = cfg.mode
    ∧ (updateCaptureConfig cfg (ConfigPatch.privacyMode bv)).interface
        = cfg.interface
    ∧ (updateCaptureConfig cfg (ConfigPatch.privacyMode bv)).alert_threshold
        = cfg.alert_threshold
    ∧ (updateCaptureConfig cfg (ConfigPatch.alertThreshold tv)).alert_threshold
        = tv
    ∧ (updateCaptureConfig cfg (ConfigPatch.alertThreshold tv)).mode = cfg.mode
    ∧ (updateCaptureConfig cfg (ConfigPatch.alertThreshold tv)).interface
        = cfg.interface
    ∧ (updateCaptureConfig cfg (ConfigPatch.alertThreshold tv)).privacy_mode
        = cfg.privacy_mode
    ∧ (updateFilterConfig cfg (FilterPatch.protocols ps)).filters.protocols = ps
    ∧ (updateFilterConfig cfg (FilterPatch.protocols ps)).filters.ports
        = cfg.filters.ports
    ∧ (updateFilterConfig cfg (FilterPatch.protocols ps)).filters.min_packet_size
        = cfg.filters.min_packet_size
    ∧ (updateFilterConfig cfg (FilterPatch.ports pn)).filters.ports = pn
    ∧ (updateFilterConfig cfg (FilterPatch.ports pn)).filters.protocols
        = cfg.filters.protocols
    ∧ (updateFilterConfig cfg (FilterPatch.ports pn)).filters.min_packet_size
        = cfg.filters.min_packet_size
    ∧ (updateFilterConfig cfg (FilterPatch.minPacketSize ms)).filters.min_packet_size
        = ms
    ∧ (updateFilterConfig cfg (FilterPatch.minPacketSize ms)).filters.protocols
        = cfg.filters.protocols
    ∧ (updateFilterConfig cfg (FilterPatch.minPacketSize ms)).filters.ports
        = cfg.filters.ports :=
  ⟨rfl, rfl, by cases p <;> rfl, by cases q <;> rfl, by cases q <;> rfl,
    by cases q <;> rfl, by cases q <;> rfl, rfl, rfl, rfl, rfl, rfl, rfl,
    rfl, rfl, rfl, rfl, rfl, rfl, rfl, rfl, rfl, rfl, rfl, rfl, rfl, rfl,
    rfl, rfl, rfl, rfl, rfl⟩

/-- `network_data` messages never write `captureStatus`: the handler
touches only the `networkData` state cell. -/
theorem foldl_applyNetworkData_captureStatus (es : List NetworkEvent) :
    ∀ st : ClientState,
      (es.foldl applyNetworkData st).captureStatus = st.captureStatus := by
  induction es with
  | nil => intro st; rfl
  | cons e es ih =>
      intro st
      rw [List.foldl_cons, ih]
      rfl

/-- C8: the "Packets Captured" statistic is derived solely from the
polled status object.  Two runs that start from arbitrary component
states, observe the same polled status, and then receive any two
(possibly different) sequences of `network_data` events display the
same counter, namely the polled `total_packets`. -/
theorem packetCounter_from_status_only (st1 st2 : ClientState)
    (resp : CaptureStatus) (es1 es2 : List NetworkEvent) :
    displayedPacketCount (es1.foldl applyNetworkData (fetchCaptureStatus st1 resp))
      = displayedPacketCount (es2.foldl applyNetworkData (fetchCaptureStatus st2 resp))
    ∧ displayedPacketCount (es1.foldl applyNetworkData (fetchCaptureStatus st1 resp))
      = resp.total_packets := by
  have h : ∀ st : ClientState,
      displayedPacketCount (es1.foldl applyNetworkData (fetchCaptureStatus st resp))
        = resp.total_packets := by
    intro st
    unfold displayedPacketCount
    rw [foldl_applyNetworkData_captureStatus]
    rfl
  have h2 : ∀ st : ClientState,
      displayedPacketCount (es2.foldl applyNetworkData (fetchCaptureStatus st resp))
        = resp.total_packets := by
    intro st
    unfold displayedPacketCount
    rw [foldl_applyNetworkData_captureStatus]
    rfl
  exact ⟨(h st1).trans (h2 st2).symm, h st1⟩

/-- C9: importing a settings file routes through `JSON.parse` inside a
`try`: for every prior settings state, if the file content does not
parse the state is kept and the error message is shown, and if it
parses to `v` the state is replaced by `v` with the success message
shown. -/
theorem importSettings_invalid_keeps_state {S : Type}
    (parse : String → Option S) (prev : S) (content : String) :
    (parse content = none → importSettings parse prev content = (prev, false))
    ∧ ∀ v : S, parse content = some v →
        importSettings parse prev content = (v, true) := by
  constructor
  · intro h
    unfold importSettings
    rw [h]
  · intro v h
    unfold importSettings
    rw [h]

/-- A toy stand-in for `JSON.parse` used by the C9 witness: it accepts
exactly the string "valid" and fails on everything else. -/
def toyParse (s : String) : Option Nat :=
  if s = "valid" then some 7 else none

/-- C9 witness: the import evaluated on a concrete unparsable file and
on a concrete parsable one. -/
theorem importSettings_invalid_keeps_state_witness :
    importSettings toyParse 5 "not json" = (5, false)
    ∧ importSettings toyParse 5 "valid" = (7, true) :=
  ⟨(importSettings_invalid_keeps_state toyParse 5 "not json").1 (by decide),
    (importSettings_invalid_keeps_state toyParse 5 "valid").2 7 (by decide)⟩

/-- C10: `getThreatLevelColor` is total — every level other than the
three recognised strings, including an absent (`none`) threat level on
an unclassified event, falls through to the default colour
`#d9d9d9`. -/
theorem getThreatLevelColor_total (level : Option String)
    (h1 : level ≠ some "HIGH") (h2 : level ≠ some "MEDIUM")
    (h3 : level ≠ some "LOW") :
    getThreatLevelColor level = "#d9d9d9" := by
  unfold getThreatLevelColor
  rw [if_neg h1, if_neg h2, if_neg h3]

/-- C10 witness: the default colour on the absent threat level of an
unclassified event. -/
theorem getThreatLevelColor_total_witness :
    getThreatLevelColor none = "#d9d9d9" :=
  getThreatLevelColor_total none (by decide) (by decide) (by decide)

end IDS
